import Mathlib

/-!
Shallow embedding of `aurora_cost_analysis.py`, the single source file of the
`aurora-usage-metrics` repository.  CloudWatch datapoints are modelled as
`(timestamp, value)` pairs with natural-number timestamps and rational values;
Python `int()` truncation and `round(x, 2)` (round-half-to-even at two decimal
places) are modelled explicitly on `ℚ`.  The AWS API responses are modelled as
inputs: each resource record carries the raw datapoint lists its CloudWatch
queries would return, and `main`'s per-resource processing and summary
aggregation are embedded as pure functions of those records.
-/

attribute [local semireducible] Rat.add Rat.mul Rat.sub Rat.inv

/-- A CloudWatch datapoint: (timestamp, value). -/
abbrev Sample := ℕ × ℚ

/-- A storage field of a report row: either a number or the `"N/A"` sentinel,
mirroring that `calculate_storage_growth` returns either numbers or the
string `"N/A"` in each position. -/
inductive SVal where
  | na
  | num (q : ℚ)
deriving DecidableEq, Repr

/-- Python `int()` on a real number: truncation toward zero
(`tdiv` of the numerator by the positive denominator). -/
def pyInt (q : ℚ) : ℤ := q.num.tdiv q.den

/-- Round-half-to-even to the nearest integer, the tie-breaking rule of
Python's builtin `round` (`fdiv` of numerator by denominator is the floor). -/
def roundHalfEven (q : ℚ) : ℤ :=
  let f := q.num.fdiv q.den
  let r := q - (f : ℚ)
  if r < 1/2 then f
  else if 1/2 < r then f + 1
  else if f % 2 = 0 then f else f + 1

/-- Python `round(q, 2)`: round to two decimal places, ties to even. -/
def round2 (q : ℚ) : ℚ := (roundHalfEven (q * 100) : ℚ) / 100

/-- Comparison used by `sorted(datapoints, key=lambda x: x['Timestamp'])`. -/
def tsLe (a b : Sample) : Prop := a.1 ≤ b.1

instance : DecidableRel tsLe := fun a b => inferInstanceAs (Decidable (a.1 ≤ b.1))

instance : IsTotal Sample tsLe := ⟨fun a b => Nat.le_total a.1 b.1⟩

instance : IsTrans Sample tsLe := ⟨fun _ _ _ h1 h2 => Nat.le_trans h1 h2⟩

/-- Embedding of `get_cluster_metric_data`: issues one CloudWatch query and returns the
datapoints sorted ascending by timestamp (an empty response, including the
error path, yields `[]`).  The raw response is the argument.  Python's
`sorted` is a stable ascending sort by key; it is embedded as the stable
`List.insertionSort` by timestamp. -/
def get_cluster_metric_data (datapoints : List Sample) : List Sample :=
  datapoints.insertionSort tsLe

/-- Embedding of `get_metric_data`: identical post-processing to `get_cluster_metric_data`,
but for instance-dimension queries: sorts the response by timestamp. -/
def get_metric_data (datapoints : List Sample) : List Sample :=
  datapoints.insertionSort tsLe

/-- Embedding of `calculate_write_io_stats`: `(0, 0)` on an empty series, otherwise
`(int(sum), int(sum / len))`. -/
def calculate_write_io_stats (write_io_data : List Sample) : ℤ × ℤ :=
  if write_io_data = [] then (0, 0)
  else
    let total : ℚ := (write_io_data.map Prod.snd).sum
    (pyInt total, pyInt (total / write_io_data.length))

/-- Embedding of `calculate_storage_growth`: with fewer than 2 samples all four fields are
`"N/A"`; otherwise `(int(first), round(first/1024^3, 2), int(last),
round(last/1024^3, 2))` where first/last are positional on the input list. -/
def calculate_storage_growth (volume_bytes_data : List Sample) :
    SVal × SVal × SVal × SVal :=
  match volume_bytes_data with
  | x :: y :: rest =>
      let firstValue := x.2
      let lastValue := ((y :: rest).getLast (List.cons_ne_nil y rest)).2
      (SVal.num (pyInt firstValue : ℚ),
       SVal.num (round2 (firstValue / 1024 ^ 3)),
       SVal.num (pyInt lastValue : ℚ),
       SVal.num (round2 (lastValue / 1024 ^ 3)))
  | _ => (SVal.na, SVal.na, SVal.na, SVal.na)

/-- One member instance of an Aurora cluster, as returned by
`get_cluster_instances`, together with the raw CloudWatch responses its two
possible write-IO queries would return (`VolumeWriteIOPS` first, `WriteIOPS`
as fallback). -/
structure InstanceData where
  masked_identifier : String
  instance_class : String
  engine : String
  role : String
  volumeWriteIopsRaw : List Sample
  writeIopsRaw : List Sample
deriving DecidableEq, Repr

/-- One Aurora cluster from `get_aurora_clusters` (its `type` field is always
the literal `"Aurora集群"`), with the raw response of its `VolumeBytesUsed`
query and its member instances from `get_cluster_instances`. -/
structure ClusterData where
  masked_identifier : String
  engine : String
  uses_secret_manager : Bool
  volumeBytesUsedRaw : List Sample
  instances : List InstanceData
deriving DecidableEq, Repr

/-- One standalone RDS instance from `get_rds_instances` (its `type` field is
always the literal `"RDS实例"`), with the raw response of its `WriteIOPS`
query. -/
structure RDSInstanceData where
  masked_identifier : String
  engine : String
  instance_class : String
  uses_secret_manager : Bool
  writeIopsRaw : List Sample
deriving DecidableEq, Repr

/-- One entry of `results`: the dict written as one CSV row.  Field names
translate the Chinese keys: `dbType` = 数据库类型, `clusterName` =
集群/实例名称, `instanceId` = 实例ID, `role` = 实例角色, `engine` = 引擎,
`instanceClass` = 实例类型, `usesSecretManager` = 使用Secret Manager,
`writeIoTotal` = 30天总写IO次数, `startBytes`/`startGB`/`endBytes`/`endGB` =
月初/月末存储总量(原始值/GB). -/
structure ReportRow where
  dbType : String
  clusterName : String
  instanceId : String
  role : String
  engine : String
  instanceClass : String
  usesSecretManager : Bool
  writeIoTotal : ℤ
  startBytes : SVal
  startGB : SVal
  endBytes : SVal
  endGB : SVal
deriving DecidableEq, Repr

/-- The single per-cluster storage reduction of `main`'s Aurora loop:
`calculate_storage_growth(get_cluster_metric_data(..., 'VolumeBytesUsed',
cluster_id, ...))`. -/
def clusterStorageResult (c : ClusterData) : SVal × SVal × SVal × SVal :=
  calculate_storage_growth (get_cluster_metric_data c.volumeBytesUsedRaw)

/-- The inner body of `main`'s Aurora loop for one member instance: fetch
`VolumeWriteIOPS`, fall back to `WriteIOPS` if the first result is empty,
reduce, and build the row, reusing the cluster-level `storageResult`. -/
def processAuroraInstance (c : ClusterData)
    (storageResult : SVal × SVal × SVal × SVal) (inst : InstanceData) :
    ReportRow :=
  let d1 := get_metric_data inst.volumeWriteIopsRaw
  let write_io_data := if d1.isEmpty then get_metric_data inst.writeIopsRaw else d1
  let stats := calculate_write_io_stats write_io_data
  { dbType := "Aurora集群"
    clusterName := c.masked_identifier
    instanceId := inst.masked_identifier
    role := inst.role
    engine := inst.engine
    instanceClass := inst.instance_class
    usesSecretManager := c.uses_secret_manager
    writeIoTotal := stats.1
    startBytes := storageResult.1
    startGB := storageResult.2.1
    endBytes := storageResult.2.2.1
    endGB := storageResult.2.2.2 }

/-- One iteration of `main`'s Aurora-cluster loop: compute the cluster storage
reduction once, then emit one row per member instance.  (The source's
`continue` when the member list is empty is extensionally the map over the
empty list: no rows are emitted and the storage result is discarded.) -/
def processCluster (c : ClusterData) : List ReportRow :=
  c.instances.map (processAuroraInstance c (clusterStorageResult c))

/-- One iteration of `main`'s RDS-instance loop: single `WriteIOPS` query (no
fallback), storage fields hard-coded to `"N/A"`. -/
def processRDSInstance (r : RDSInstanceData) : ReportRow :=
  let write_io_data := get_metric_data r.writeIopsRaw
  let stats := calculate_write_io_stats write_io_data
  { dbType := "RDS实例"
    clusterName := r.masked_identifier
    instanceId := r.masked_identifier
    role := "Standalone"
    engine := r.engine
    instanceClass := r.instance_class
    usesSecretManager := r.uses_secret_manager
    writeIoTotal := stats.1
    startBytes := SVal.na
    startGB := SVal.na
    endBytes := SVal.na
    endGB := SVal.na }

/-- The full `results` list of `main`: all Aurora rows (cluster by cluster) in
order, then all RDS rows. -/
def buildResults (clusters : List ClusterData) (rds : List RDSInstanceData) :
    List ReportRow :=
  (clusters.map processCluster).flatten ++ rds.map processRDSInstance

/-- One step of the summary's dedup loop over `results`: Aurora rows whose
cluster name is not yet a key of `unique_clusters` insert `end_gb - start_gb`
(or `0` when either GB field is `"N/A"`); all other rows leave the map
unchanged.  The dict is modelled as an insertion-ordered association list.
`rowGrowth` is the value inserted for a newly seen cluster name:
`end_gb - start_gb` when both GB fields are numeric, else `0`. -/
def rowGrowth (r : ReportRow) : ℚ :=
  match r.startGB, r.endGB with
  | SVal.num s, SVal.num e => e - s
  | _, _ => 0

def dedupStep (acc : List (String × ℚ)) (r : ReportRow) : List (String × ℚ) :=
  if r.dbType = "Aurora集群" then
    if r.clusterName ∈ acc.map Prod.fst then acc
    else acc ++ [(r.clusterName, rowGrowth r)]
  else acc

/-- The `unique_clusters` dict of the summary block: fold the dedup step over all
rows. -/
def unique_clusters (results : List ReportRow) : List (String × ℚ) :=
  results.foldl dedupStep []

/-- The summary total: `total_storage_growth = sum(unique_clusters.values())`. -/
def total_storage_growth (results : List ReportRow) : ℚ :=
  ((unique_clusters results).map Prod.snd).sum

/-- The growth value a cluster contributes when it is first inserted into
`unique_clusters`: `endGB - startGB` of its storage reduction when both are
numeric, else `0`. -/
def clusterGrowth (c : ClusterData) : ℚ :=
  match (clusterStorageResult c).2.1, (clusterStorageResult c).2.2.2 with
  | SVal.num s, SVal.num e => e - s
  | _, _ => 0

/-- A CloudWatch `get_metric_statistics` request as issued by
`get_metric_data`: metric name, statistic, period and window. -/
structure MetricQuery where
  metricName : String
  statistic : String
  period : ℕ
  startTime : ℕ
  endTime : ℕ
deriving DecidableEq, Repr

/-- The first (primary) write-throughput query of the Aurora instance loop:
`VolumeWriteIOPS`, statistic `Sum`, period 3600, over the run's window. -/
def primaryWriteQuery (st et : ℕ) : MetricQuery :=
  ⟨"VolumeWriteIOPS", "Sum", 3600, st, et⟩

/-- The fallback write-throughput query of the Aurora instance loop:
`WriteIOPS`, statistic `Sum`, period 3600, over the same window. -/
def fallbackWriteQuery (st et : ℕ) : MetricQuery :=
  ⟨"WriteIOPS", "Sum", 3600, st, et⟩

/-- Lines 284–299 of `main`, instrumented with the list of queries actually
issued: query `VolumeWriteIOPS`; only if its (sorted) result is empty, issue
the single fallback `WriteIOPS` query.  `src` maps each possible request to
the raw datapoints CloudWatch would return for it. -/
def fetchAuroraWriteData (st et : ℕ) (src : MetricQuery → List Sample) :
    List Sample × List MetricQuery :=
  let d1 := get_metric_data (src (primaryWriteQuery st et))
  if d1.isEmpty then
    (get_metric_data (src (fallbackWriteQuery st et)),
     [primaryWriteQuery st et, fallbackWriteQuery st et])
  else (d1, [primaryWriteQuery st et])

/-- Lines 339–346 of `main`, instrumented with the list of queries actually
issued: the RDS-instance loop performs a single `WriteIOPS` query (statistic
`Sum`, period 3600, same window) with no fallback and never queries
`VolumeWriteIOPS`, whatever the result is. -/
def fetchRDSWriteData (st et : ℕ) (src : MetricQuery → List Sample) :
    List Sample × List MetricQuery :=
  (get_metric_data (src (fallbackWriteQuery st et)), [fallbackWriteQuery st et])

/-- The run-level environment `main` observes: the resolved region (if any),
whether credentials resolve, and the catalog contents. -/
structure RunEnv where
  region : Option String
  credentialsOk : Bool
  clusters : List ClusterData
  rds_instances : List RDSInstanceData

/-- Observable outcome of one run: process exit code, whether a CSV
file was produced, and whether any AWS list/metric API was invoked. -/
structure RunResult where
  exitCode : ℕ
  fileWritten : Bool
  apiCalled : Bool
deriving DecidableEq, Repr

/-- Control flow of `main`: no region → `sys.exit(1)` before creating
clients; no credentials → `sys.exit(1)` before any API call; both catalogs
empty → `sys.exit(0)` with no file; otherwise the run completes (implicit
exit 0) and writes the CSV iff `results` is non-empty. -/
def runMain (env : RunEnv) : RunResult :=
  match env.region with
  | none => ⟨1, false, false⟩
  | some _ =>
    if env.credentialsOk then
      if env.clusters = [] ∧ env.rds_instances = [] then ⟨0, false, true⟩
      else ⟨0, !(buildResults env.clusters env.rds_instances).isEmpty, true⟩
    else ⟨1, false, false⟩

example : calculate_write_io_stats [] = (0, 0) := by decide
example : calculate_write_io_stats [(0, 3), (1, 4)] = (7, 3) := by decide
example : calculate_storage_growth [(0, 5)] = (.na, .na, .na, .na) := by decide
example :
    calculate_storage_growth [(0, 1024 ^ 3), (1, 3 * 1024 ^ 3)] =
      (.num (1024 ^ 3), .num 1, .num (3 * 1024 ^ 3), .num 3) := by decide

/-! ### Helper lemmas -/

lemma get_metric_data_eq_nil_iff (l : List Sample) :
    get_metric_data l = [] ↔ l = [] := by
  constructor
  · intro h
    have := congrArg List.length h
    rw [get_metric_data, List.length_insertionSort] at this
    exact List.length_eq_zero.mp this
  · intro h
    simp [get_metric_data, h]

lemma get_cluster_metric_data_length (l : List Sample) :
    (get_cluster_metric_data l).length = l.length := by
  simp [get_cluster_metric_data, List.length_insertionSort]

lemma mem_get_cluster_metric_data {s : Sample} {l : List Sample} :
    s ∈ get_cluster_metric_data l ↔ s ∈ l := by
  simp [get_cluster_metric_data]

lemma sorted_get_cluster_metric_data (l : List Sample) :
    (get_cluster_metric_data l).Pairwise tsLe :=
  List.sorted_insertionSort tsLe l

/-- In a timestamp-sorted list, the head's timestamp is minimal. -/
lemma sorted_head_ts_min {x : Sample} {xs : List Sample}
    (h : (x :: xs).Pairwise tsLe) :
    ∀ a ∈ x :: xs, x.1 ≤ a.1 := by
  intro a ha
  rcases List.mem_cons.mp ha with rfl | ha
  · exact le_refl _
  · exact (List.pairwise_cons.mp h).1 a ha

/-- In a timestamp-sorted list, the last element's timestamp is maximal. -/
lemma sorted_ts_le_getLast :
    ∀ (l : List Sample) (hne : l ≠ []),
      l.Pairwise tsLe →
      ∀ a ∈ l, a.1 ≤ (l.getLast hne).1
  | [], hne, _, _, _ => absurd rfl hne
  | [x], _, _, a, ha => by
      rcases List.mem_singleton.mp ha with rfl
      exact le_refl _
  | x :: y :: rest, _, h, a, ha => by
      have htail := (List.pairwise_cons.mp h).2
      have hlast :
          ((x :: y :: rest).getLast (List.cons_ne_nil x (y :: rest))) =
          ((y :: rest).getLast (List.cons_ne_nil y rest)) :=
        List.getLast_cons (List.cons_ne_nil y rest)
      rcases List.mem_cons.mp ha with rfl | ha
      · have hmem := List.getLast_mem (l := y :: rest) (List.cons_ne_nil y rest)
        have := (List.pairwise_cons.mp h).1 _ hmem
        rw [hlast]
        exact this
      · rw [hlast]
        exact sorted_ts_le_getLast (y :: rest) (List.cons_ne_nil y rest) htail a ha

/-- Values with denominator 1 are fixed points of Python `int()`. -/
lemma pyInt_cast_of_den_one {q : ℚ} (h : q.den = 1) : (pyInt q : ℚ) = q := by
  have hnum : (q.num : ℚ) = q := by
    have := Rat.num_div_den q
    rw [h] at this
    simpa using this
  rw [pyInt, h]
  simpa [Int.tdiv_one] using hnum

/-! ### Claim C4: throughput reduction -/

/-- Claim C4: for every throughput series, the reduction returns the truncated
sum of all sample values as the total, and the truncated quotient of that sum
by the number of samples (not by a fixed 30) as the daily average; the empty
series yields `(0, 0)`. -/
theorem claim_C4_write_io_reduction (d : List Sample) :
    (d = [] → calculate_write_io_stats d = (0, 0)) ∧
    (d ≠ [] →
      (calculate_write_io_stats d).1 = pyInt ((d.map Prod.snd).sum) ∧
      (calculate_write_io_stats d).2 =
        pyInt ((d.map Prod.snd).sum / (d.length : ℚ))) := by
  constructor
  · intro h
    simp [calculate_write_io_stats, h]
  · intro h
    simp [calculate_write_io_stats, h]

theorem claim_C4_witness :
    ([((0:ℕ), (3:ℚ)), (1, 4)] : List Sample) ≠ [] ∧
    (calculate_write_io_stats [((0:ℕ), (3:ℚ)), (1, 4)]).1 =
      pyInt ((([((0:ℕ), (3:ℚ)), (1, 4)] : List Sample).map Prod.snd).sum) ∧
    (calculate_write_io_stats [((0:ℕ), (3:ℚ)), (1, 4)]).2 =
      pyInt ((([((0:ℕ), (3:ℚ)), (1, 4)] : List Sample).map Prod.snd).sum /
        (([((0:ℕ), (3:ℚ)), (1, 4)] : List Sample).length : ℚ)) :=
  ⟨by decide, (claim_C4_write_io_reduction _).2 (by decide)⟩

/-! ### Claim C5: short storage series -/

/-- Claim C5: a storage series with fewer than 2 samples (including the empty
series) reduces to the `"N/A"` sentinel in all four fields. -/
theorem claim_C5_short_series_na (d : List Sample) (h : d.length < 2) :
    calculate_storage_growth d = (SVal.na, SVal.na, SVal.na, SVal.na) := by
  rcases d with _ | ⟨x, _ | ⟨y, rest⟩⟩
  · rfl
  · rfl
  · exfalso
    simp only [List.length_cons] at h
    omega

theorem claim_C5_witness :
    ([((7:ℕ), (42:ℚ))] : List Sample).length < 2 ∧
    calculate_storage_growth [((7:ℕ), (42:ℚ))] =
      (SVal.na, SVal.na, SVal.na, SVal.na) :=
  ⟨by decide, claim_C5_short_series_na _ (by decide)⟩

/-! ### Claim C3: write-throughput fallback policy -/

/-- The Aurora member-instance write fetch (lines 284–299) is a fixed
two-attempt policy: `VolumeWriteIOPS` is queried first; the `WriteIOPS`
fallback (same statistic, period and window) is issued exactly when the
primary result is empty; at most two queries are ever issued; and when both
results are empty the reduced total is the integer `0`, not a sentinel. -/
lemma aurora_write_fallback_policy (st et : ℕ) (src : MetricQuery → List Sample) :
    (src (primaryWriteQuery st et) ≠ [] →
      fetchAuroraWriteData st et src =
        (get_metric_data (src (primaryWriteQuery st et)),
         [primaryWriteQuery st et])) ∧
    (src (primaryWriteQuery st et) = [] →
      fetchAuroraWriteData st et src =
        (get_metric_data (src (fallbackWriteQuery st et)),
         [primaryWriteQuery st et, fallbackWriteQuery st et])) ∧
    (∀ q ∈ (fetchAuroraWriteData st et src).2,
      q.statistic = "Sum" ∧ q.period = 3600 ∧ q.startTime = st ∧ q.endTime = et) ∧
    (fetchAuroraWriteData st et src).2.length ≤ 2 ∧
    (src (primaryWriteQuery st et) = [] → src (fallbackWriteQuery st et) = [] →
      calculate_write_io_stats (fetchAuroraWriteData st et src).1 = (0, 0)) := by
  by_cases h : src (primaryWriteQuery st et) = []
  · have hd1 : get_metric_data (src (primaryWriteQuery st et)) = [] :=
      (get_metric_data_eq_nil_iff _).mpr h
    have hfetch : fetchAuroraWriteData st et src =
        (get_metric_data (src (fallbackWriteQuery st et)),
         [primaryWriteQuery st et, fallbackWriteQuery st et]) := by
      simp [fetchAuroraWriteData, hd1]
    refine ⟨fun hne => absurd h hne, fun _ => hfetch, ?_, ?_, ?_⟩
    · rw [hfetch]
      intro q hq
      rcases List.mem_cons.mp hq with rfl | hq
      · exact ⟨rfl, rfl, rfl, rfl⟩
      · rcases List.mem_singleton.mp hq with rfl
        exact ⟨rfl, rfl, rfl, rfl⟩
    · rw [hfetch]
      exact le_refl 2
    · intro _ h2
      rw [hfetch]
      simp [(get_metric_data_eq_nil_iff _).mpr h2, calculate_write_io_stats]
  · have hd1 : get_metric_data (src (primaryWriteQuery st et)) ≠ [] :=
      fun hc => h ((get_metric_data_eq_nil_iff _).mp hc)
    have hfetch : fetchAuroraWriteData st et src =
        (get_metric_data (src (primaryWriteQuery st et)),
         [primaryWriteQuery st et]) := by
      simp [fetchAuroraWriteData, List.isEmpty_iff, hd1]
    refine ⟨fun _ => hfetch, fun he => absurd he h, ?_, ?_, ?_⟩
    · rw [hfetch]
      intro q hq
      rcases List.mem_singleton.mp hq with rfl
      exact ⟨rfl, rfl, rfl, rfl⟩
    · rw [hfetch]
      exact Nat.le_succ 1
    · intro he
      exact absurd he h

/-- Counterexample to claim C3 as stated: the two-attempt policy does **not**
hold for every resource.  A standalone RDS instance (lines 339–346) issues
exactly one query, and that query is `WriteIOPS`: even when every result set
is empty, `VolumeWriteIOPS` is never queried first and no second attempt is
made. -/
theorem claim_C3_counterexample :
    (fetchRDSWriteData 0 1 (fun _ => [])).2 = [fallbackWriteQuery 0 1] ∧
    (fetchRDSWriteData 0 1 (fun _ => [])).2.length = 1 ∧
    (∀ q ∈ (fetchRDSWriteData 0 1 (fun _ => [])).2,
      ¬ q.metricName = "VolumeWriteIOPS") := by
  exact ⟨rfl, rfl, by decide⟩

/-- Claim C3 as amended: the fixed two-attempt policy governs the write fetch
of every Aurora cluster member instance — `VolumeWriteIOPS` is queried first,
the `WriteIOPS` fallback over the same window and period is issued exactly
when the primary result set is empty, at most one fallback hop ever happens,
and when both attempts return empty series the reported total is the integer
`0`, not the unknown sentinel.  Standalone RDS instances instead issue a
single `WriteIOPS` query, with no `VolumeWriteIOPS` attempt and no fallback;
an empty result likewise reduces to the total `0`. -/
theorem claim_C3_amended_write_fetch (st et : ℕ)
    (src : MetricQuery → List Sample) :
    ((src (primaryWriteQuery st et) ≠ [] →
      fetchAuroraWriteData st et src =
        (get_metric_data (src (primaryWriteQuery st et)),
         [primaryWriteQuery st et])) ∧
    (src (primaryWriteQuery st et) = [] →
      fetchAuroraWriteData st et src =
        (get_metric_data (src (fallbackWriteQuery st et)),
         [primaryWriteQuery st et, fallbackWriteQuery st et])) ∧
    (∀ q ∈ (fetchAuroraWriteData st et src).2,
      q.statistic = "Sum" ∧ q.period = 3600 ∧ q.startTime = st ∧ q.endTime = et) ∧
    (fetchAuroraWriteData st et src).2.length ≤ 2 ∧
    (src (primaryWriteQuery st et) = [] → src (fallbackWriteQuery st et) = [] →
      calculate_write_io_stats (fetchAuroraWriteData st et src).1 = (0, 0))) ∧
    ((fetchRDSWriteData st et src).2 = [fallbackWriteQuery st et] ∧
    (fetchRDSWriteData st et src).1 =
      get_metric_data (src (fallbackWriteQuery st et)) ∧
    (∀ q ∈ (fetchRDSWriteData st et src).2, q.metricName = "WriteIOPS") ∧
    (src (fallbackWriteQuery st et) = [] →
      calculate_write_io_stats (fetchRDSWriteData st et src).1 = (0, 0))) := by
  refine ⟨aurora_write_fallback_policy st et src, rfl, rfl, ?_, ?_⟩
  · intro q hq
    rcases List.mem_singleton.mp hq with rfl
    rfl
  · intro h
    show calculate_write_io_stats (get_metric_data (src (fallbackWriteQuery st et))) = (0, 0)
    rw [(get_metric_data_eq_nil_iff _).mpr h]
    rfl

theorem claim_C3_witness :
    (fun q : MetricQuery => if q.metricName = "VolumeWriteIOPS" then ([] : List Sample)
        else [((0:ℕ), (5:ℚ))]) (primaryWriteQuery 0 1) = [] ∧
    fetchAuroraWriteData 0 1
      (fun q : MetricQuery => if q.metricName = "VolumeWriteIOPS" then ([] : List Sample)
        else [((0:ℕ), (5:ℚ))]) =
      (get_metric_data [((0:ℕ), (5:ℚ))],
       [primaryWriteQuery 0 1, fallbackWriteQuery 0 1]) ∧
    (fetchRDSWriteData 0 1
      (fun q : MetricQuery => if q.metricName = "VolumeWriteIOPS" then ([] : List Sample)
        else [((0:ℕ), (5:ℚ))])).2 = [fallbackWriteQuery 0 1] :=
  ⟨by decide,
   (claim_C3_amended_write_fetch 0 1 _).1.2.1 (by decide),
   (claim_C3_amended_write_fetch 0 1 _).2.1⟩

/-! ### Claim C7: exit behaviour -/

/-- Claim C7: the process exits 0 exactly when region and credentials resolve
(including the no-resources case, which produces no report file), and exits
non-zero, before any API call, when region or credentials cannot be
resolved. -/
theorem claim_C7_exit_codes (env : RunEnv) :
    ((runMain env).exitCode = 0 ↔ env.region.isSome ∧ env.credentialsOk = true) ∧
    ((runMain env).exitCode ≠ 0 → (runMain env).apiCalled = false) ∧
    (env.region.isSome → env.credentialsOk = true →
      env.clusters = [] → env.rds_instances = [] →
      (runMain env).exitCode = 0 ∧ (runMain env).fileWritten = false) := by
  obtain ⟨reg, creds, cl, rds⟩ := env
  rcases reg with _ | r
  · simp [runMain]
  · rcases creds with _ | _
    · simp [runMain]
    · by_cases hcl : cl = [] ∧ rds = []
      · simp [runMain, hcl]
      · constructor
        · simp [runMain, hcl]
        · constructor
          · simp [runMain, hcl]
          · intro _ _ h1 h2
            exact absurd ⟨h1, h2⟩ hcl

theorem claim_C7_witness :
    (runMain ⟨some "us-east-1", true, [], []⟩).exitCode = 0 ∧
    (runMain ⟨some "us-east-1", true, [], []⟩).fileWritten = false :=
  (claim_C7_exit_codes ⟨some "us-east-1", true, [], []⟩).2.2 rfl rfl rfl rfl

/-! ### The summary dedup fold -/

lemma mem_processCluster {c : ClusterData} {r : ReportRow}
    (h : r ∈ processCluster c) :
    r.dbType = "Aurora集群" ∧ r.clusterName = c.masked_identifier ∧
    r.startBytes = (clusterStorageResult c).1 ∧
    r.startGB = (clusterStorageResult c).2.1 ∧
    r.endBytes = (clusterStorageResult c).2.2.1 ∧
    r.endGB = (clusterStorageResult c).2.2.2 := by
  obtain ⟨i, _, rfl⟩ := List.mem_map.mp h
  exact ⟨rfl, rfl, rfl, rfl, rfl, rfl⟩

lemma rowGrowth_processAuroraInstance (c : ClusterData) (i : InstanceData) :
    rowGrowth (processAuroraInstance c (clusterStorageResult c) i) =
      clusterGrowth c := by
  rcases h1 : (clusterStorageResult c).2.1 with _ | s <;>
    rcases h2 : (clusterStorageResult c).2.2.2 with _ | e <;>
      simp [rowGrowth, clusterGrowth, processAuroraInstance, h1, h2]

lemma dedupStep_of_mem {acc : List (String × ℚ)} {r : ReportRow}
    (h : r.clusterName ∈ acc.map Prod.fst) : dedupStep acc r = acc := by
  by_cases h1 : r.dbType = "Aurora集群"
  · simp [dedupStep, h1, h]
  · simp [dedupStep, h1]

lemma dedupStep_not_aurora {acc : List (String × ℚ)} {r : ReportRow}
    (h : ¬ r.dbType = "Aurora集群") : dedupStep acc r = acc := by
  simp [dedupStep, h]

lemma dedupStep_insert {acc : List (String × ℚ)} {r : ReportRow}
    (ha : r.dbType = "Aurora集群") (h : r.clusterName ∉ acc.map Prod.fst) :
    dedupStep acc r = acc ++ [(r.clusterName, rowGrowth r)] := by
  simp [dedupStep, ha, h]

/-- Rows whose cluster name is already a key never change the map. -/
lemma foldl_dedupStep_of_mem (nm : String) :
    ∀ (rows : List ReportRow) (acc : List (String × ℚ)),
      (∀ r ∈ rows, r.clusterName = nm) → nm ∈ acc.map Prod.fst →
      rows.foldl dedupStep acc = acc
  | [], _, _, _ => rfl
  | r :: rs, acc, hr, hm => by
      have h1 : dedupStep acc r = acc :=
        dedupStep_of_mem (by rw [hr r (List.mem_cons_self r rs)]; exact hm)
      rw [List.foldl_cons, h1]
      exact foldl_dedupStep_of_mem nm rs acc
        (fun x hx => hr x (List.mem_cons_of_mem r hx)) hm

/-- Folding the dedup step over the rows of one cluster whose name is new
inserts exactly one entry, carrying the cluster's growth value. -/
lemma foldl_processCluster_new (c : ClusterData) (acc : List (String × ℚ))
    (hne : c.instances ≠ []) (hnm : c.masked_identifier ∉ acc.map Prod.fst) :
    (processCluster c).foldl dedupStep acc =
      acc ++ [(c.masked_identifier, clusterGrowth c)] := by
  obtain ⟨i, is, hi⟩ : ∃ i is, c.instances = i :: is := by
    rcases h : c.instances with _ | ⟨i, is⟩
    · exact absurd h hne
    · exact ⟨i, is, rfl⟩
  unfold processCluster
  rw [hi, List.map_cons, List.foldl_cons]
  have h1 : dedupStep acc (processAuroraInstance c (clusterStorageResult c) i) =
      acc ++ [(c.masked_identifier, clusterGrowth c)] := by
    rw [dedupStep_insert rfl hnm, rowGrowth_processAuroraInstance]
    rfl
  rw [h1]
  refine foldl_dedupStep_of_mem c.masked_identifier _ _ ?_ ?_
  · intro r hr
    obtain ⟨x, _, rfl⟩ := List.mem_map.mp hr
    rfl
  · simp [List.map_append]

/-- Folding the dedup step over all Aurora rows of a run with pairwise
distinct cluster display names yields one entry per cluster that has at
least one member instance, in catalog order. -/
lemma foldl_flatten_clusters :
    ∀ (cs : List ClusterData) (acc : List (String × ℚ)),
      (cs.map ClusterData.masked_identifier).Nodup →
      (∀ c ∈ cs, c.masked_identifier ∉ acc.map Prod.fst) →
      ((cs.map processCluster).flatten).foldl dedupStep acc =
        acc ++ (cs.filter fun c => !c.instances.isEmpty).map
          (fun c => (c.masked_identifier, clusterGrowth c))
  | [], acc, _, _ => by simp
  | c :: cs, acc, hnd, hdisj => by
      have hnd2 : ((c :: cs).map ClusterData.masked_identifier).Nodup := hnd
      rw [List.map_cons, List.nodup_cons] at hnd2
      rw [List.map_cons, List.flatten_cons, List.foldl_append]
      by_cases hi : c.instances = []
      · have hpc : processCluster c = [] := by simp [processCluster, hi]
        rw [hpc, List.foldl_nil,
          foldl_flatten_clusters cs acc hnd2.2
            (fun x hx => hdisj x (List.mem_cons_of_mem c hx))]
        have : (c :: cs).filter (fun c => !c.instances.isEmpty) =
            cs.filter (fun c => !c.instances.isEmpty) := by
          simp [List.filter_cons, hi]
        rw [this]
      · rw [foldl_processCluster_new c acc hi (hdisj c (List.mem_cons_self c cs))]
        rw [foldl_flatten_clusters cs
          (acc ++ [(c.masked_identifier, clusterGrowth c)]) hnd2.2 ?_]
        · have : (c :: cs).filter (fun c => !c.instances.isEmpty) =
              c :: cs.filter (fun c => !c.instances.isEmpty) := by
            simp [List.filter_cons, hi]
          rw [this, List.map_cons, List.append_assoc]
          rfl
        · intro x hx
          simp only [List.map_append, List.map_cons, List.map_nil]
          intro hmem
          rcases List.mem_append.mp hmem with hmem | hmem
          · exact hdisj x (List.mem_cons_of_mem c hx) hmem
          · rcases List.mem_singleton.mp hmem with heq
            exact hnd2.1 (heq ▸ List.mem_map_of_mem ClusterData.masked_identifier hx)

/-- RDS rows never touch the dedup map. -/
lemma foldl_rds_rows (rows : List RDSInstanceData) :
    ∀ acc : List (String × ℚ),
      (rows.map processRDSInstance).foldl dedupStep acc = acc := by
  induction rows with
  | nil => intro acc; rfl
  | cons r rs ih =>
      intro acc
      have hna : ¬ (processRDSInstance r).dbType = "Aurora集群" := by
        show ¬ "RDS实例" = "Aurora集群"
        decide
      rw [List.map_cons, List.foldl_cons, dedupStep_not_aurora hna]
      exact ih acc

/-- With pairwise distinct cluster display names, `unique_clusters` holds
exactly one entry per cluster that produced rows. -/
lemma unique_clusters_eq (clusters : List ClusterData) (rds : List RDSInstanceData)
    (hnd : (clusters.map ClusterData.masked_identifier).Nodup) :
    unique_clusters (buildResults clusters rds) =
      (clusters.filter fun c => !c.instances.isEmpty).map
        (fun c => (c.masked_identifier, clusterGrowth c)) := by
  unfold unique_clusters buildResults
  rw [List.foldl_append, foldl_flatten_clusters clusters [] hnd (by simp),
    foldl_rds_rows]
  simp

/-- The run-wide storage-growth total is the sum of one growth value per
cluster that produced rows. -/
lemma total_growth_eq (clusters : List ClusterData) (rds : List RDSInstanceData)
    (hnd : (clusters.map ClusterData.masked_identifier).Nodup) :
    total_storage_growth (buildResults clusters rds) =
      ((clusters.filter fun c => !c.instances.isEmpty).map clusterGrowth).sum := by
  unfold total_storage_growth
  rw [unique_clusters_eq clusters rds hnd, List.map_map]
  simp [Function.comp_def]

/-! ### Claim C1: per-cluster deduplicated total -/

/-- Claim C1: with pairwise distinct cluster display names, the run-wide
storage-growth total counts each cluster's growth exactly once — it equals the
sum, over the distinct clusters that produced rows, of one growth value per
cluster — independently of how many member-instance rows each cluster
contributed, because the dedup map is keyed on the cluster display name. -/
theorem claim_C1_dedup_storage_total (clusters : List ClusterData)
    (rds : List RDSInstanceData)
    (hnd : (clusters.map ClusterData.masked_identifier).Nodup) :
    total_storage_growth (buildResults clusters rds) =
      ((clusters.filter fun c => !c.instances.isEmpty).map clusterGrowth).sum :=
  total_growth_eq clusters rds hnd

/-- A member instance used by concrete witnesses. -/
def instW (nm : String) : InstanceData :=
  ⟨nm, "db.r5.large", "aurora-mysql", "Reader", [], []⟩

/-- Witness cluster for C1: three member instances, storage growing by
exactly 10 GiB over the window. -/
def cW1 : ClusterData :=
  ⟨"db-aaaa0000", "aurora-mysql", false,
   [(0, 0), (1, 10 * 1024 ^ 3)],
   [instW "db-i0000001", instW "db-i0000002", instW "db-i0000003"]⟩

theorem claim_C1_witness :
    (buildResults [cW1] []).length = 3 ∧
    total_storage_growth (buildResults [cW1] []) = 10 := by
  constructor
  · decide
  · rw [claim_C1_dedup_storage_total [cW1] [] (by decide)]
    decide

/-! ### Claim C6: broadcast of the per-cluster storage reduction -/

/-- Claim C6: every row emitted for a cluster carries, unchanged, the single
per-cluster storage reduction (computed from the cluster's own series, not
per instance); consequently any two rows of the same cluster agree on all
four storage fields. -/
theorem claim_C6_storage_broadcast (c : ClusterData) :
    (∀ r ∈ processCluster c,
      r.clusterName = c.masked_identifier ∧
      r.startBytes = (clusterStorageResult c).1 ∧
      r.startGB = (clusterStorageResult c).2.1 ∧
      r.endBytes = (clusterStorageResult c).2.2.1 ∧
      r.endGB = (clusterStorageResult c).2.2.2) ∧
    (∀ r1 ∈ processCluster c, ∀ r2 ∈ processCluster c,
      r1.startBytes = r2.startBytes ∧ r1.startGB = r2.startGB ∧
      r1.endBytes = r2.endBytes ∧ r1.endGB = r2.endGB) := by
  have hfields := fun r hr => mem_processCluster (c := c) (r := r) hr
  constructor
  · intro r hr
    obtain ⟨-, h1, h2, h3, h4, h5⟩ := hfields r hr
    exact ⟨h1, h2, h3, h4, h5⟩
  · intro r1 h1 r2 h2
    obtain ⟨-, -, a1, a2, a3, a4⟩ := hfields r1 h1
    obtain ⟨-, -, b1, b2, b3, b4⟩ := hfields r2 h2
    exact ⟨a1.trans b1.symm, a2.trans b2.symm, a3.trans b3.symm, a4.trans b4.symm⟩

/-- Witness cluster for C6: two member instances with different write-IO
data, shared storage series. -/
def cW6 : ClusterData :=
  ⟨"db-cccc0000", "aurora-mysql", true,
   [(1, 5 * 1024 ^ 3), (0, 3 * 1024 ^ 3)],
   [⟨"db-i0000011", "db.r5.large", "aurora-mysql", "Writer", [(0, 2)], []⟩,
    ⟨"db-i0000012", "db.r5.large", "aurora-mysql", "Reader", [], [(0, 7)]⟩]⟩

theorem claim_C6_witness :
    (processAuroraInstance cW6 (clusterStorageResult cW6)
        ⟨"db-i0000011", "db.r5.large", "aurora-mysql", "Writer", [(0, 2)], []⟩).clusterName =
      cW6.masked_identifier ∧
    (processAuroraInstance cW6 (clusterStorageResult cW6)
        ⟨"db-i0000011", "db.r5.large", "aurora-mysql", "Writer", [(0, 2)], []⟩).startGB =
      (clusterStorageResult cW6).2.1 :=
  have h := (claim_C6_storage_broadcast cW6).1 _
    (List.mem_map_of_mem (processAuroraInstance cW6 (clusterStorageResult cW6))
      (List.mem_cons_self _ _))
  ⟨h.1, h.2.2.1⟩

/-! ### Claim C9: clusters with no member instances -/

/-- Claim C9: a cluster whose member-instance lookup returns no instances
produces no rows at all: it vanishes from the row set (hence from the CSV
file and the instance counts) and from the storage-growth total. -/
theorem claim_C9_empty_cluster_skipped (c : ClusterData)
    (pre post : List ClusterData) (rds : List RDSInstanceData)
    (h : c.instances = []) :
    processCluster c = [] ∧
    buildResults (pre ++ c :: post) rds = buildResults (pre ++ post) rds ∧
    (buildResults (pre ++ c :: post) rds).length =
      (buildResults (pre ++ post) rds).length ∧
    total_storage_growth (buildResults (pre ++ c :: post) rds) =
      total_storage_growth (buildResults (pre ++ post) rds) := by
  have h1 : processCluster c = [] := by simp [processCluster, h]
  have h2 : buildResults (pre ++ c :: post) rds = buildResults (pre ++ post) rds := by
    unfold buildResults
    rw [List.map_append, List.map_append, List.map_cons,
      List.flatten_append, List.flatten_append, List.flatten_cons, h1]
    simp
  exact ⟨h1, h2, by rw [h2], by rw [h2]⟩

/-- Witness cluster for C9: a two-sample storage series but no member
instances. -/
def cW9 : ClusterData :=
  ⟨"db-ee000000", "aurora-mysql", false, [(0, 7), (1, 9)], []⟩

theorem claim_C9_witness :
    processCluster cW9 = [] ∧
    buildResults ([] ++ cW9 :: [cW6]) [] = buildResults ([] ++ [cW6]) [] ∧
    (buildResults ([] ++ cW9 :: [cW6]) []).length =
      (buildResults ([] ++ [cW6]) []).length ∧
    total_storage_growth (buildResults ([] ++ cW9 :: [cW6]) []) =
      total_storage_growth (buildResults ([] ++ [cW6]) []) :=
  claim_C9_empty_cluster_skipped cW9 [] [cW6] [] rfl

/-! ### Claim C10: unknown-growth clusters count as zero -/

/-- Claim C10: a cluster whose rows carry the `"N/A"` sentinel in the
storage-start or storage-end GB field is not skipped by the summary: it is
entered into the dedup map with growth exactly `0`, and the run-wide total is
the sum in which that cluster contributes the summand `0`. -/
theorem claim_C10_na_growth_zero (clusters : List ClusterData)
    (rds : List RDSInstanceData) (c : ClusterData)
    (hnd : (clusters.map ClusterData.masked_identifier).Nodup)
    (hc : c ∈ clusters) (hne : c.instances ≠ [])
    (hna : (clusterStorageResult c).2.1 = SVal.na ∨
           (clusterStorageResult c).2.2.2 = SVal.na) :
    clusterGrowth c = 0 ∧
    (c.masked_identifier, (0 : ℚ)) ∈ unique_clusters (buildResults clusters rds) ∧
    total_storage_growth (buildResults clusters rds) =
      ((clusters.filter fun c' => !c'.instances.isEmpty).map clusterGrowth).sum := by
  have hg : clusterGrowth c = 0 := by
    rcases h1 : (clusterStorageResult c).2.1 with _ | s <;>
      rcases h2 : (clusterStorageResult c).2.2.2 with _ | e <;>
        simp_all [clusterGrowth]
  refine ⟨hg, ?_, total_growth_eq clusters rds hnd⟩
  rw [unique_clusters_eq clusters rds hnd]
  have hcf : c ∈ clusters.filter (fun c' => !c'.instances.isEmpty) := by
    rw [List.mem_filter]
    exact ⟨hc, by simp [hne]⟩
  have hmem := List.mem_map_of_mem
    (fun c' : ClusterData => (c'.masked_identifier, clusterGrowth c')) hcf
  simpa [hg] using hmem

/-- Witness cluster for C10: a single-sample storage series (reduces to
`"N/A"`) and one member instance. -/
def cW10 : ClusterData :=
  ⟨"db-ffff0000", "aurora-mysql", false, [(0, 5)], [instW "db-i0000021"]⟩

theorem claim_C10_witness :
    clusterGrowth cW10 = 0 ∧
    (cW10.masked_identifier, (0 : ℚ)) ∈ unique_clusters (buildResults [cW10] []) ∧
    total_storage_growth (buildResults [cW10] []) =
      ((([cW10] : List ClusterData).filter
          fun c' => !c'.instances.isEmpty).map clusterGrowth).sum :=
  claim_C10_na_growth_zero [cW10] [] cW10 (by decide)
    (List.mem_singleton.mpr rfl) (by decide) (Or.inl (by decide))

/-! ### Truncation and rounding characterisation -/

lemma ratFloor_fdiv (q : ℚ) : q.num.fdiv q.den = ⌊q⌋ := by
  have h1 : q.num.fdiv (q.den : ℤ) = q.num / (q.den : ℤ) :=
    Int.fdiv_eq_ediv _ (Int.natCast_nonneg _)
  have h2 : ⌊((q.num : ℚ) / (q.den : ℚ))⌋ = q.num / (q.den : ℤ) :=
    Rat.floor_intCast_div_natCast q.num q.den
  rw [Rat.num_div_den] at h2
  rw [h1, ← h2]

lemma pyInt_eq_floor {q : ℚ} (h : 0 ≤ q) : pyInt q = ⌊q⌋ := by
  have hnum : 0 ≤ q.num := Rat.num_nonneg.mpr h
  have h1 : q.num.tdiv (q.den : ℤ) = q.num / (q.den : ℤ) :=
    Int.tdiv_eq_ediv hnum (Int.natCast_nonneg _)
  have h2 : ⌊((q.num : ℚ) / (q.den : ℚ))⌋ = q.num / (q.den : ℤ) :=
    Rat.floor_intCast_div_natCast q.num q.den
  rw [Rat.num_div_den] at h2
  rw [pyInt, h1, ← h2]

lemma pyInt_eq_ceil {q : ℚ} (h : q ≤ 0) : pyInt q = ⌈q⌉ := by
  have hneg : pyInt (-q) = ⌊-q⌋ := pyInt_eq_floor (neg_nonneg.mpr h)
  have hflip : pyInt (-q) = -(pyInt q) := by
    rw [pyInt, pyInt, Rat.neg_num, Rat.neg_den, Int.neg_tdiv]
  rw [hflip, Int.floor_neg] at hneg
  omega

/-- Python `int()` truncates toward zero: the result is within 1 of the
argument and no larger in absolute value. -/
lemma pyInt_trunc_bounds (q : ℚ) :
    |q - (pyInt q : ℚ)| < 1 ∧ |(pyInt q : ℚ)| ≤ |q| := by
  rcases le_or_lt 0 q with h | h
  · rw [pyInt_eq_floor h]
    have hle : (⌊q⌋ : ℚ) ≤ q := Int.floor_le q
    have hlt : q < (⌊q⌋ : ℚ) + 1 := Int.lt_floor_add_one q
    have hfl : (0 : ℚ) ≤ (⌊q⌋ : ℚ) := by
      exact_mod_cast Int.floor_nonneg.mpr h
    constructor
    · rw [abs_of_nonneg (by linarith)]
      linarith
    · rw [abs_of_nonneg h, abs_of_nonneg hfl]
      exact hle
  · rw [pyInt_eq_ceil h.le]
    have hge : q ≤ (⌈q⌉ : ℚ) := Int.le_ceil q
    have hlt : (⌈q⌉ : ℚ) < q + 1 := Int.ceil_lt_add_one q
    have hcl : (⌈q⌉ : ℚ) ≤ 0 := by
      exact_mod_cast Int.ceil_le.mpr (by exact_mod_cast h.le : q ≤ ((0 : ℤ) : ℚ))
    constructor
    · rw [abs_of_nonpos (by linarith)]
      linarith
    · rw [abs_of_nonpos h.le, abs_of_nonpos hcl]
      linarith

/-- Correctness of `roundHalfEven` as a rounding: it is within one half of its
argument. -/
lemma roundHalfEven_le_half (q : ℚ) : |q - (roundHalfEven q : ℚ)| ≤ 1/2 := by
  have hf : q.num.fdiv (q.den : ℤ) = ⌊q⌋ := ratFloor_fdiv q
  have hle : (⌊q⌋ : ℚ) ≤ q := Int.floor_le q
  have hlt : q < (⌊q⌋ : ℚ) + 1 := Int.lt_floor_add_one q
  simp only [roundHalfEven, hf]
  split_ifs with h1 h2 h3 <;>
    [skip; skip; skip; skip] <;>
    rw [abs_le] <;> constructor <;> push_cast <;> linarith

/-- The function `round2` rounds to an integer number of hundredths, within `1/200` of its
argument. -/
lemma round2_spec (v : ℚ) :
    |v - round2 v| ≤ 1/200 ∧ round2 v = ((roundHalfEven (v * 100) : ℤ) : ℚ) / 100 := by
  refine ⟨?_, rfl⟩
  have h := roundHalfEven_le_half (v * 100)
  have heq : v - round2 v = (v * 100 - (roundHalfEven (v * 100) : ℚ)) / 100 := by
    rw [round2]
    ring
  rw [heq, abs_div, abs_of_pos (show (0:ℚ) < 100 by norm_num)]
  linarith

/-! ### Claim C8: unit conversion and rounding of the storage reduction -/

/-- Counterexample to claim C8 as stated: the reduction does **not** return
the raw byte values unrounded — Python `int()` truncates them.  On the series
`[(0, 3/2), (1, 5/2)]` the start-bytes field is `1`, not the raw first value
`3/2`. -/
theorem claim_C8_counterexample :
    (calculate_storage_growth [((0:ℕ), (3:ℚ)/2), (1, 5/2)]).1 = SVal.num 1 ∧
    (calculate_storage_growth [((0:ℕ), (3:ℚ)/2), (1, 5/2)]).1 ≠
      SVal.num ((3:ℚ)/2) := by
  exact ⟨by decide, by decide⟩

/-- Claim C8 as amended: for any series of length ≥ 2 the storage reduction
returns, for each of the first and last samples, the byte value truncated to
an integer (within 1 of the raw value, no larger in absolute value — not the
raw value unrounded) and a GB figure equal to an integer number of hundredths
(2 decimal places) within half a hundredth of the value divided by the binary
GiB divisor `1024^3`. -/
theorem claim_C8_amended_conversion (x y : Sample) (rest : List Sample) :
    ∃ b1 k1 bn kn : ℤ,
      calculate_storage_growth (x :: y :: rest) =
        (SVal.num (b1 : ℚ), SVal.num ((k1 : ℚ) / 100),
         SVal.num (bn : ℚ), SVal.num ((kn : ℚ) / 100)) ∧
      |x.2 - (b1 : ℚ)| < 1 ∧ |(b1 : ℚ)| ≤ |x.2| ∧
      |x.2 / 1024 ^ 3 - (k1 : ℚ) / 100| ≤ 1 / 200 ∧
      |((y :: rest).getLast (List.cons_ne_nil y rest)).2 - (bn : ℚ)| < 1 ∧
      |(bn : ℚ)| ≤ |((y :: rest).getLast (List.cons_ne_nil y rest)).2| ∧
      |((y :: rest).getLast (List.cons_ne_nil y rest)).2 / 1024 ^ 3 -
        (kn : ℚ) / 100| ≤ 1 / 200 := by
  refine ⟨pyInt x.2, roundHalfEven (x.2 / 1024 ^ 3 * 100),
    pyInt ((y :: rest).getLast (List.cons_ne_nil y rest)).2,
    roundHalfEven (((y :: rest).getLast (List.cons_ne_nil y rest)).2 / 1024 ^ 3 * 100),
    rfl, (pyInt_trunc_bounds x.2).1, (pyInt_trunc_bounds x.2).2, ?_,
    (pyInt_trunc_bounds _).1, (pyInt_trunc_bounds _).2, ?_⟩
  · have h := (round2_spec (x.2 / 1024 ^ 3)).1
    rwa [round2] at h
  · have h := (round2_spec
      (((y :: rest).getLast (List.cons_ne_nil y rest)).2 / 1024 ^ 3)).1
    rwa [round2] at h

/-! ### Claim C2: start/end selection by timestamp -/

/-- Counterexample to claim C2 as stated: sortedness is **not** enforced
inside the storage reduction itself; the reduction reads the positionally
first and last entries of its input.  On the unsorted series
`[(1, 10), (0, 20)]` it returns start-bytes `10`, the value of the sample
with the **larger** timestamp, instead of `20`. -/
theorem claim_C2_counterexample :
    (calculate_storage_growth [((1:ℕ), (10:ℚ)), (0, 20)]).1 = SVal.num 10 ∧
    (calculate_storage_growth [((1:ℕ), (10:ℚ)), (0, 20)]).1 ≠ SVal.num 20 := by
  exact ⟨by decide, by decide⟩

/-- Claim C2 as amended: sorting by timestamp is enforced by the metric
fetcher, not by the reduction; for every raw series of length ≥ 2 with
pairwise-distinct timestamps and integer sample values, the composite
fetch-then-reduce pipeline returns start-bytes equal to the value of the
sample with the smallest timestamp and end-bytes equal to the value of the
sample with the largest timestamp, regardless of the order of the raw
series. -/
theorem claim_C2_amended_start_end (raw : List Sample) (tmin tmax : ℕ)
    (vmin vmax : ℚ)
    (hlen : 2 ≤ raw.length)
    (hnd : (raw.map Prod.fst).Nodup)
    (hint : ∀ s ∈ raw, (s.2).den = 1)
    (hminMem : ((tmin, vmin) : Sample) ∈ raw) (hmin : ∀ s ∈ raw, tmin ≤ s.1)
    (hmaxMem : ((tmax, vmax) : Sample) ∈ raw) (hmax : ∀ s ∈ raw, s.1 ≤ tmax) :
    (calculate_storage_growth (get_cluster_metric_data raw)).1 = SVal.num vmin ∧
    (calculate_storage_growth (get_cluster_metric_data raw)).2.2.1 =
      SVal.num vmax := by
  obtain ⟨x, y, rest, hxy⟩ :
      ∃ x y rest, get_cluster_metric_data raw = x :: y :: rest := by
    have hslen : (get_cluster_metric_data raw).length = raw.length :=
      get_cluster_metric_data_length raw
    rcases hs : get_cluster_metric_data raw with _ | ⟨x, _ | ⟨y, rest⟩⟩
    · rw [hs] at hslen
      exfalso
      simp at hslen
      omega
    · rw [hs] at hslen
      exfalso
      simp at hslen
      omega
    · exact ⟨x, y, rest, rfl⟩
  have hsorted := sorted_get_cluster_metric_data raw
  rw [hxy] at hsorted
  constructor
  · have hxmem : x ∈ raw := by
      have hx : x ∈ get_cluster_metric_data raw := by
        rw [hxy]
        exact List.mem_cons_self _ _
      exact mem_get_cluster_metric_data.mp hx
    have hminS : ((tmin, vmin) : Sample) ∈ x :: y :: rest := by
      rw [← hxy]
      exact mem_get_cluster_metric_data.mpr hminMem
    have h1 : x.1 ≤ tmin := sorted_head_ts_min hsorted _ hminS
    have h2 : tmin ≤ x.1 := hmin x hxmem
    have hxeq : x = (tmin, vmin) :=
      List.inj_on_of_nodup_map hnd hxmem hminMem (le_antisymm h1 h2)
    rw [hxy]
    show SVal.num (pyInt x.2 : ℚ) = SVal.num vmin
    rw [hxeq, pyInt_cast_of_den_one (hint _ hminMem)]
  · have hLmemS :
        (y :: rest).getLast (List.cons_ne_nil y rest) ∈ x :: y :: rest :=
      List.mem_cons_of_mem x (List.getLast_mem _)
    have hLraw : (y :: rest).getLast (List.cons_ne_nil y rest) ∈ raw := by
      have := hLmemS
      rw [← hxy] at this
      exact mem_get_cluster_metric_data.mp this
    have hmaxS : ((tmax, vmax) : Sample) ∈ x :: y :: rest := by
      rw [← hxy]
      exact mem_get_cluster_metric_data.mpr hmaxMem
    have hgl :
        ((x :: y :: rest).getLast (List.cons_ne_nil x (y :: rest))) =
        ((y :: rest).getLast (List.cons_ne_nil y rest)) :=
      List.getLast_cons (List.cons_ne_nil y rest)
    have h1 : tmax ≤ ((y :: rest).getLast (List.cons_ne_nil y rest)).1 := by
      have := sorted_ts_le_getLast (x :: y :: rest)
        (List.cons_ne_nil x (y :: rest)) hsorted _ hmaxS
      rwa [hgl] at this
    have h2 : ((y :: rest).getLast (List.cons_ne_nil y rest)).1 ≤ tmax :=
      hmax _ hLraw
    have hLeq : (y :: rest).getLast (List.cons_ne_nil y rest) = (tmax, vmax) :=
      List.inj_on_of_nodup_map hnd hLraw hmaxMem (le_antisymm h2 h1)
    rw [hxy]
    show SVal.num (pyInt ((y :: rest).getLast (List.cons_ne_nil y rest)).2 : ℚ) =
      SVal.num vmax
    rw [hLeq, pyInt_cast_of_den_one (hint _ hmaxMem)]

theorem claim_C2_witness :
    2 ≤ ([((5:ℕ), (7:ℚ)), (2, 3)] : List Sample).length ∧
    (calculate_storage_growth
        (get_cluster_metric_data [((5:ℕ), (7:ℚ)), (2, 3)])).1 = SVal.num 3 ∧
    (calculate_storage_growth
        (get_cluster_metric_data [((5:ℕ), (7:ℚ)), (2, 3)])).2.2.1 = SVal.num 7 :=
  ⟨by decide,
   (claim_C2_amended_start_end [((5:ℕ), (7:ℚ)), (2, 3)] 2 5 3 7 (by decide)
     (by decide) (by decide) (by decide) (by decide) (by decide) (by decide)).1,
   (claim_C2_amended_start_end [((5:ℕ), (7:ℚ)), (2, 3)] 2 5 3 7 (by decide)
     (by decide) (by decide) (by decide) (by decide) (by decide) (by decide)).2⟩
